import Mathlib

/-!
Shallow embedding of `src/PyQt5_Custom_Circular_Gauge_Widget.py`.

Python floats are modelled as rationals (`ℚ`), Python ints as `ℤ`.
Fallible Python code (a `raise`, or a division that can raise
`ZeroDivisionError`) is modelled with `Except String`.  Qt colors are
modelled by a small inductive type: the widget only stores and forwards
them, never inspects their channels, so the exact color database is
irrelevant to every property below.  Painter calls are modelled as an
explicit list of drawing operations (`DrawOp`), recording the geometric
parameters the source computes (angles, radii, labels) while the actual
trigonometric rasterisation performed by Qt stays outside the model.
-/

/-- Model of a resolved Qt color (`QColor` / `Qt.GlobalColor` / color name).
The widget treats colors opaquely, so constructors mirror the ways the
source produces them. -/
inductive QtColor
| rgb (r g b : ℤ)
| rgba (r g b a : ℤ)
| named (s : String)
deriving DecidableEq, Repr

/-- `CircularGauge._get_color`: a `QColor` is returned as is, anything else
is converted via the `QColor` constructor.  In the model every color input
is already a resolved `QtColor`, so the conversion is the identity. -/
def get_color (c : QtColor) : QtColor := c

/-- The fields assigned by `CircularGauge.__init__` (lines 69-88 of the
source).  `angle_range` is a stored field, computed once at construction
as `end_angle - start_angle`. -/
structure CircularGauge where
  min_value : ℚ
  max_value : ℚ
  value : ℚ
  steps : ℤ
  start_angle : ℚ
  end_angle : ℚ
  angle_range : ℚ
  outer_circle_thickness : ℤ
  outer_circle_pen_color : QtColor
  outer_circle_brush_color : Option QtColor
  inner_ring_pen_color : QtColor
  inner_ring_brush_color : Option QtColor
  inner_circle_brush_color : Option QtColor
  number_font_size : ℤ
  number_font_family : String
deriving DecidableEq, Repr

namespace CircularGauge

/-- `CircularGauge.__init__` (lines 66-88): raises `ValueError` when
`min_value >= max_value`, otherwise stores every argument; the initial
`value` is stored as given, without clamping.  The `setMinimumSize` call
and the widget-parent argument are Qt plumbing with no observable effect
on any field modelled here. -/
def init (min_value max_value value : ℚ) (steps : ℤ)
    (start_angle end_angle : ℚ)
    (outer_circle_pen_color : QtColor)
    (outer_circle_brush_color : Option QtColor)
    (outer_circle_thickness : ℤ)
    (inner_ring_pen_color : QtColor)
    (inner_ring_brush_color : Option QtColor)
    (inner_circle_brush_color : Option QtColor)
    (number_font_size : ℤ)
    (number_font_family : String) : Except String CircularGauge :=
  if min_value ≥ max_value then
    Except.error "min_value must be less than max_value"
  else
    Except.ok
      { min_value := min_value
        max_value := max_value
        value := value
        steps := steps
        start_angle := start_angle
        end_angle := end_angle
        angle_range := end_angle - start_angle
        outer_circle_thickness := outer_circle_thickness
        outer_circle_pen_color := get_color outer_circle_pen_color
        outer_circle_brush_color := outer_circle_brush_color.map get_color
        inner_ring_pen_color := get_color inner_ring_pen_color
        inner_ring_brush_color := inner_ring_brush_color.map get_color
        inner_circle_brush_color := inner_circle_brush_color.map get_color
        number_font_size := number_font_size
        number_font_family := number_font_family }

/-- `CircularGauge.setValue` (lines 97-109): clamps the argument into
`[min_value, max_value]` and stores it; the trailing `self.update()` only
schedules a repaint and touches no field.  The Python method has no raise
path, hence the total type. -/
def setValue (g : CircularGauge) (value : ℚ) : CircularGauge :=
  if value < g.min_value then { g with value := g.min_value }
  else if value > g.max_value then { g with value := g.max_value }
  else { g with value := value }

/-- `CircularGauge.normalize_angle` (lines 141-143): Python `angle % 360`
on floats, whose result lies in `[0, 360)` (sign of the divisor). -/
def normalize_angle (angle : ℚ) : ℚ := angle - 360 * ⌊angle / 360⌋

end CircularGauge

/-- Python float division: raises `ZeroDivisionError` on a zero divisor. -/
def pydiv (a b : ℚ) : Except String ℚ :=
  if b = 0 then Except.error "float division by zero" else Except.ok (a / b)

/-- `f"{val:.0f}"` on the mathematical value: rounding to zero decimal
places, ties to even (IEEE round-half-even, which Python string formatting
uses). -/
def fmtZeroDec (q : ℚ) : ℤ :=
  let f := ⌊q⌋
  let frac := q - f
  if frac < 1 / 2 then f
  else if 1 / 2 < frac then f + 1
  else if f % 2 = 0 then f else f + 1

/-- One painter call, recording the geometric parameters the source
computes before handing them to Qt. -/
inductive DrawOp
/- a tick: radial segment at `angle` degrees from radius `r1` to `r2` -/
| tickLine (angle r1 r2 : ℚ)
/- a numeric label at `angle` degrees, radial distance `dist`, displaying
   the integer `label`, rotated by `rotation` degrees -/
| numberText (angle dist : ℚ) (label : ℤ) (rotation : ℚ)
/- an arc from `startA` spanning `spanA` (Qt convention, negated angles),
   stroked at `thickness`, filled or not -/
| outerArc (startA spanA thickness : ℚ) (filled : Bool)
/- needle-shadow polygon, rotated by `angle`, tip at radius - 20 -/
| needleShadow (angle tip : ℚ)
/- the needle polygon itself -/
| needlePoly (angle tip : ℚ)
/- shadow of the center ring (outer radius 12, inner radius 5) -/
| ringShadow (angle : ℚ)
/- the center ring, filled or not -/
| centerRing (filled : Bool)
/- the optional center hole disc of radius 5 -/
| centerHole (c : QtColor)
deriving DecidableEq, Repr

namespace CircularGauge

/-- `CircularGauge.drawOuterArc` (lines 186-214): arc geometry from the
normalized start angle, negated for Qt's counterclockwise-positive
convention, stroked at `outer_circle_thickness`, filled iff a brush color
is configured. -/
def drawOuterArc (g : CircularGauge) : List DrawOp :=
  [DrawOp.outerArc (-(normalize_angle g.start_angle)) (-(g.angle_range))
    (g.outer_circle_thickness : ℚ) g.outer_circle_brush_color.isSome]

/-- `CircularGauge.drawOuterArc2` (lines 216-243): same arc geometry,
restroked at half the outer thickness with a fixed translucent gray pen,
never filled. -/
def drawOuterArc2 (g : CircularGauge) : List DrawOp :=
  [DrawOp.outerArc (-(normalize_angle g.start_angle)) (-(g.angle_range))
    ((g.outer_circle_thickness : ℚ) / 2) false]

/-- `CircularGauge.drawTicks` (lines 245-263): computes
`angle_step = angle_range / steps` (a Python float division that raises
`ZeroDivisionError` when `steps == 0`), then draws one radial segment per
`i in range(steps + 1)` at angle `start_angle + i * angle_step` from
radius `radius - 10` to `radius`.  For negative `steps`, `range` is empty. -/
def drawTicks (g : CircularGauge) (radius : ℚ) : Except String (List DrawOp) := do
  let angle_step ← pydiv g.angle_range (g.steps : ℚ)
  pure ((List.range (g.steps + 1).toNat).map fun i : ℕ =>
    DrawOp.tickLine (g.start_angle + (i : ℚ) * angle_step) (radius - 10) radius)

/-- `CircularGauge.drawNumbers` (lines 265-293): same `angle_step`
division, then for each `i in range(steps + 1)` the displayed value is
`min_value + i * (max_value - min_value) / steps` (the second division is
again a fallible Python float division), formatted with `"{:.0f}"`, drawn
at radial distance `radius - 25` and rotated by `angle + 90`. -/
def drawNumbers (g : CircularGauge) (radius : ℚ) : Except String (List DrawOp) := do
  let angle_step ← pydiv g.angle_range (g.steps : ℚ)
  (List.range (g.steps + 1).toNat).mapM fun i : ℕ => do
    let q ← pydiv ((i : ℚ) * (g.max_value - g.min_value)) (g.steps : ℚ)
    let val := g.min_value + q
    pure (DrawOp.numberText (g.start_angle + (i : ℚ) * angle_step) (radius - 25)
      (fmtZeroDec val) (g.start_angle + (i : ℚ) * angle_step + 90))

/-- `value_range` and `value_ratio` from `CircularGauge.drawNeedle`
(lines 298-302): the division is guarded, a zero range yields `0.0`. -/
def value_ratio (g : CircularGauge) : ℚ :=
  let value_range := g.max_value - g.min_value
  if value_range = 0 then 0
  else (g.value - g.min_value) / value_range

/-- The needle angle computed in `CircularGauge.drawNeedle` (line 305). -/
def needleAngle (g : CircularGauge) : ℚ :=
  g.start_angle + value_ratio g * g.angle_range

/-- `CircularGauge.drawNeedle` (lines 295-373): shadow polygon and needle
polygon rotated by the needle angle (triangle tip at `radius - 20`), ring
shadow, the ring (filled iff a ring brush is configured), and the optional
center hole.  No call in the body can raise, hence the total type. -/
def drawNeedle (g : CircularGauge) (radius : ℚ) : List DrawOp :=
  let angle := needleAngle g
  [DrawOp.needleShadow angle (radius - 20),
   DrawOp.needlePoly angle (radius - 20),
   DrawOp.ringShadow angle,
   DrawOp.centerRing g.inner_ring_brush_color.isSome]
  ++ (match g.inner_circle_brush_color with
      | some c => [DrawOp.centerHole c]
      | none => [])

end CircularGauge

/-- The widget rectangle handed to `paintEvent` (`self.rect()`). -/
structure Rect where
  width : ℤ
  height : ℤ
deriving DecidableEq, Repr

namespace CircularGauge

/-- The body of the `try` block of `CircularGauge.paintEvent`
(lines 113-136): compute
`radius = min(width, height) / 2 - outer_circle_thickness`, then draw, in
order, the outer arc, the ticks, the numbers, the overlay arc and the
needle assembly.  A fault in any step (`drawTicks` / `drawNumbers` raise
on `steps == 0`) aborts the rest of the body, as Python exceptions do. -/
def renderOps (g : CircularGauge) (rect : Rect) : Except String (List DrawOp) := do
  let radius : ℚ := (min rect.width rect.height : ℚ) / 2 - (g.outer_circle_thickness : ℚ)
  let ticks ← g.drawTicks radius
  let numbers ← g.drawNumbers radius
  pure (g.drawOuterArc ++ ticks ++ numbers ++ g.drawOuterArc2 ++ g.drawNeedle radius)

/-- The observable outcome of one `paintEvent` call: the drawing
operations issued, and the diagnostic line printed by the `except`
branch if one fired. -/
structure PaintResult where
  ops : List DrawOp
  log : Option String
deriving DecidableEq, Repr

/-- `CircularGauge.paintEvent` (lines 111-139): the whole body is wrapped
in `try/except Exception`; a fault is logged as
`"Error in paintEvent: ..."` and swallowed.  The `Except` return type is
the embedding of "a Python method that may raise": the theorems below
show this one never does. -/
def paintEvent (g : CircularGauge) (rect : Rect) : Except String PaintResult :=
  match renderOps g rect with
  | Except.ok ops => Except.ok { ops := ops, log := none }
  | Except.error e => Except.ok { ops := [], log := some ("Error in paintEvent: " ++ e) }

end CircularGauge

/-- A widget together with the history of frames it has produced, used to
state that rendering retains no memory of previous frames. -/
structure WidgetState where
  gauge : CircularGauge
  frames : List (Except String CircularGauge.PaintResult)

/-- One repaint request: run `paintEvent` on the current gauge and record
the produced frame.  `paintEvent` reads only `self` fields and the
rectangle and writes no field, so the gauge is carried over unchanged. -/
def paintStep (s : WidgetState) (rect : Rect) : WidgetState :=
  { gauge := s.gauge, frames := s.frames ++ [s.gauge.paintEvent rect] }

/-- Apply a sequence of `setValue` calls in order. -/
def applyValues (g : CircularGauge) (vs : List ℚ) : CircularGauge :=
  vs.foldl CircularGauge.setValue g

/-- The gauge configured by the demo window (lines 380-395). -/
def demoGauge : CircularGauge :=
  { min_value := 0
    max_value := 30
    value := 0
    steps := 15
    start_angle := -210
    end_angle := 30
    angle_range := 240
    outer_circle_thickness := 20
    outer_circle_pen_color := QtColor.rgb 0 150 255
    outer_circle_brush_color := some (QtColor.named "white")
    inner_ring_pen_color := QtColor.rgb 0 150 255
    inner_ring_brush_color := some (QtColor.rgb 0 150 255)
    inner_circle_brush_color := some (QtColor.named "white")
    number_font_size := 14
    number_font_family := "Arial" }

/-- A gauge whose construction matches the demo but with `steps = 0`,
exercising the unvalidated-steps render fault. -/
def zeroStepsGauge : CircularGauge := { demoGauge with steps := 0 }

/-- A gauge record with a degenerate range, as it would exist were the
construction-time validation ever bypassed. -/
def degenerateGauge : CircularGauge :=
  { demoGauge with min_value := 5, max_value := 5, value := 7 }

/-- Checks the invariant claimed for the stored value. -/
def valueInRange (g : CircularGauge) : Bool :=
  decide (g.min_value ≤ g.value) && decide (g.value ≤ g.max_value)

lemma setValue_min_max_eq (g : CircularGauge) (v : ℚ) :
    (g.setValue v).min_value = g.min_value ∧ (g.setValue v).max_value = g.max_value := by
  unfold CircularGauge.setValue
  split_ifs <;> exact ⟨rfl, rfl⟩

lemma setValue_value_bounds (g : CircularGauge) (v : ℚ)
    (h : g.min_value ≤ g.max_value) :
    g.min_value ≤ (g.setValue v).value ∧ (g.setValue v).value ≤ g.max_value := by
  unfold CircularGauge.setValue
  split_ifs with h1 h2
  · exact ⟨le_refl _, h⟩
  · exact ⟨h, le_refl _⟩
  · exact ⟨by linarith, by linarith⟩

lemma applyValues_bounds : ∀ (vs : List ℚ) (g : CircularGauge),
    g.min_value ≤ g.max_value → g.min_value ≤ g.value → g.value ≤ g.max_value →
    (applyValues g vs).min_value = g.min_value ∧
    (applyValues g vs).max_value = g.max_value ∧
    g.min_value ≤ (applyValues g vs).value ∧
    (applyValues g vs).value ≤ g.max_value := by
  intro vs
  induction vs with
  | nil => exact fun g h hl hr => ⟨rfl, rfl, hl, hr⟩
  | cons v vs ih =>
    intro g h hl hr
    have hmm := setValue_min_max_eq g v
    have hb := setValue_value_bounds g v h
    have hrec := ih (g.setValue v) (by rw [hmm.1, hmm.2]; exact h)
      (by rw [hmm.1]; exact hb.1) (by rw [hmm.2]; exact hb.2)
    simp only [applyValues, List.foldl_cons] at *
    refine ⟨by rw [hrec.1, hmm.1], by rw [hrec.2.1, hmm.2], ?_, ?_⟩
    · have := hrec.2.2.1; rw [hmm.1] at this; exact this
    · have := hrec.2.2.2; rw [hmm.2] at this; exact this

/-- C1: for a gauge with `min_value < max_value`, `setValue` stores
`min_value` when the input is below it, `max_value` when the input is
above it, and the input itself when it lies inside the range; the method
is total, so no error is raised for out-of-range input. -/
theorem setValue_clamps (g : CircularGauge) (v : ℚ)
    (h : g.min_value < g.max_value) :
    (v < g.min_value → (g.setValue v).value = g.min_value) ∧
    (g.max_value < v → (g.setValue v).value = g.max_value) ∧
    (g.min_value ≤ v → v ≤ g.max_value → (g.setValue v).value = v) := by
  refine ⟨fun hv => ?_, fun hv => ?_, fun hl hr => ?_⟩ <;>
    unfold CircularGauge.setValue <;>
    split_ifs <;> first | rfl | linarith

/-- Witness for C1 on the demo gauge (range `[0, 30]`): `setValue (-5)`
stores `0`, `setValue 40` stores `30`, `setValue 15` stores `15`. -/
theorem setValue_clamps_witness :
    (demoGauge.setValue (-5)).value = demoGauge.min_value ∧
    (demoGauge.setValue 40).value = demoGauge.max_value ∧
    (demoGauge.setValue 15).value = 15 :=
  ⟨(setValue_clamps demoGauge (-5) (by norm_num [demoGauge])).1 (by norm_num [demoGauge]),
   (setValue_clamps demoGauge 40 (by norm_num [demoGauge])).2.1 (by norm_num [demoGauge]),
   (setValue_clamps demoGauge 15 (by norm_num [demoGauge])).2.2
     (by norm_num [demoGauge]) (by norm_num [demoGauge])⟩

/-- C2 counterexample: construction stores the initial `value` argument
without clamping, so a gauge constructed with range `[0, 100]` and
initial value `200` holds a stored value outside the configured range —
the claimed invariant fails for the assignment performed at
construction. -/
theorem init_stores_unclamped_value :
    (CircularGauge.init 0 100 200 10 (-210) 30 (QtColor.named "black") none 12
        (QtColor.named "black") (some (QtColor.named "white")) none 10
        "Arial").map valueInRange = Except.ok false := by
  have h : ¬ ((0:ℚ) ≥ 100) := by norm_num
  simp only [CircularGauge.init]
  rw [if_neg h]
  simp only [Except.map, valueInRange]
  simp [show ¬ ((200:ℚ) ≤ 100) by norm_num]

/-- C2 amended: after the first `setValue` call, the stored value lies in
`[min_value, max_value]` and stays there under every further sequence of
`setValue` calls (the assignment performed at construction is not
clamped). -/
theorem value_in_range_after_setValue (g : CircularGauge) (v : ℚ) (vs : List ℚ)
    (h : g.min_value ≤ g.max_value) :
    g.min_value ≤ (applyValues (g.setValue v) vs).value ∧
    (applyValues (g.setValue v) vs).value ≤ g.max_value := by
  have hmm := setValue_min_max_eq g v
  have hb := setValue_value_bounds g v h
  have hrec := applyValues_bounds vs (g.setValue v) (by rw [hmm.1, hmm.2]; exact h)
    (by rw [hmm.1]; exact hb.1) (by rw [hmm.2]; exact hb.2)
  constructor
  · have := hrec.2.2.1; rw [hmm.1] at this; exact this
  · have := hrec.2.2.2; rw [hmm.2] at this; exact this

/-- Witness for the amended C2 on the demo gauge: after `setValue 200`
followed by the updates `[-7, 12, 99]`, the stored value is within
`[0, 30]`. -/
theorem value_in_range_after_setValue_witness :
    demoGauge.min_value ≤ (applyValues (demoGauge.setValue 200) [-7, 12, 99]).value ∧
    (applyValues (demoGauge.setValue 200) [-7, 12, 99]).value ≤ demoGauge.max_value :=
  value_in_range_after_setValue demoGauge 200 [-7, 12, 99] (by norm_num [demoGauge])

/-- C4: construction raises the configuration error exactly when
`min_value >= max_value`, and with the exact source message; with
`min_value < max_value` it always returns a gauge. -/
theorem init_raises_iff (mn mx v : ℚ) (steps : ℤ) (sa ea : ℚ)
    (pc : QtColor) (bc : Option QtColor) (th : ℤ) (rp : QtColor)
    (rb hc : Option QtColor) (fs : ℤ) (ff : String) :
    (mx ≤ mn →
      CircularGauge.init mn mx v steps sa ea pc bc th rp rb hc fs ff =
        Except.error "min_value must be less than max_value") ∧
    (mn < mx →
      (CircularGauge.init mn mx v steps sa ea pc bc th rp rb hc fs ff).isOk = true) := by
  constructor
  · intro h
    simp [CircularGauge.init, if_pos (show mn ≥ mx from h)]
  · intro h
    simp [CircularGauge.init, if_neg (not_le.mpr h), Except.isOk, Except.toBool]

/-- Witness for C4: `min_value = max_value = 5` raises, `0 < 30`
succeeds. -/
theorem init_raises_iff_witness :
    CircularGauge.init 5 5 0 10 (-210) 30 (QtColor.named "black") none 12
      (QtColor.named "black") none none 10 "Arial" =
      Except.error "min_value must be less than max_value" ∧
    (CircularGauge.init 0 30 0 15 (-210) 30 (QtColor.named "black") none 12
      (QtColor.named "black") none none 10 "Arial").isOk = true :=
  ⟨(init_raises_iff 5 5 0 10 (-210) 30 (QtColor.named "black") none 12
      (QtColor.named "black") none none 10 "Arial").1 (by norm_num),
   (init_raises_iff 0 30 0 15 (-210) 30 (QtColor.named "black") none 12
      (QtColor.named "black") none none 10 "Arial").2 (by norm_num)⟩

/-- C5: with a degenerate range (`max_value - min_value = 0`) the guarded
ratio is `0` — the division is never evaluated, so there is no division
fault — and the needle angle degrades to `start_angle`. -/
theorem value_ratio_degenerate_zero (g : CircularGauge)
    (h : g.max_value - g.min_value = 0) :
    CircularGauge.value_ratio g = 0 ∧ g.needleAngle = g.start_angle := by
  have h1 : CircularGauge.value_ratio g = 0 := by
    simp [CircularGauge.value_ratio, h]
  exact ⟨h1, by simp [CircularGauge.needleAngle, h1]⟩

/-- Witness for C5 on a concrete degenerate gauge (`min = max = 5`,
stored value `7`). -/
theorem value_ratio_degenerate_zero_witness :
    CircularGauge.value_ratio degenerateGauge = 0 ∧
    degenerateGauge.needleAngle = degenerateGauge.start_angle :=
  value_ratio_degenerate_zero degenerateGauge (by norm_num [degenerateGauge, demoGauge])

/-- C9: `setValue` writes only the `value` field — range, steps, angles,
colors, thickness and font settings are all unchanged. -/
theorem setValue_frame_effect (g : CircularGauge) (v : ℚ) :
    (g.setValue v).min_value = g.min_value ∧
    (g.setValue v).max_value = g.max_value ∧
    (g.setValue v).steps = g.steps ∧
    (g.setValue v).start_angle = g.start_angle ∧
    (g.setValue v).end_angle = g.end_angle ∧
    (g.setValue v).angle_range = g.angle_range ∧
    (g.setValue v).outer_circle_thickness = g.outer_circle_thickness ∧
    (g.setValue v).outer_circle_pen_color = g.outer_circle_pen_color ∧
    (g.setValue v).outer_circle_brush_color = g.outer_circle_brush_color ∧
    (g.setValue v).inner_ring_pen_color = g.inner_ring_pen_color ∧
    (g.setValue v).inner_ring_brush_color = g.inner_ring_brush_color ∧
    (g.setValue v).inner_circle_brush_color = g.inner_circle_brush_color ∧
    (g.setValue v).number_font_size = g.number_font_size ∧
    (g.setValue v).number_font_family = g.number_font_family := by
  unfold CircularGauge.setValue
  split_ifs <;> exact ⟨rfl, rfl, rfl, rfl, rfl, rfl, rfl, rfl, rfl, rfl, rfl, rfl, rfl, rfl⟩

lemma value_ratio_nondegenerate (g : CircularGauge)
    (h : g.max_value - g.min_value ≠ 0) :
    CircularGauge.value_ratio g = (g.value - g.min_value) / (g.max_value - g.min_value) := by
  simp [CircularGauge.value_ratio, h]

lemma needleAngle_formula (g : CircularGauge) (v : ℚ)
    (h : g.max_value - g.min_value ≠ 0) :
    CircularGauge.needleAngle { g with value := v } =
      g.start_angle + ((v - g.min_value) / (g.max_value - g.min_value)) * g.angle_range := by
  simp [CircularGauge.needleAngle, CircularGauge.value_ratio, h]

/-- C3: the needle angle is strictly increasing in the stored value when
`angle_range > 0` and strictly decreasing when `angle_range < 0`; it is
`start_angle` at `min_value` and `start_angle + angle_range` at
`max_value`; and on a gauge with range `[0, 30]` whose `angle_range`
field was set at construction (`angle_range = end_angle - start_angle`),
`setValue 30` puts the needle at `end_angle` and `setValue 15` at
`start_angle + (1/2) * angle_range`. -/
theorem needleAngle_of_value (g : CircularGauge) (h : g.min_value < g.max_value) :
    (∀ v₁ v₂ : ℚ, v₁ < v₂ → 0 < g.angle_range →
      CircularGauge.needleAngle { g with value := v₁ } <
        CircularGauge.needleAngle { g with value := v₂ }) ∧
    (∀ v₁ v₂ : ℚ, v₁ < v₂ → g.angle_range < 0 →
      CircularGauge.needleAngle { g with value := v₂ } <
        CircularGauge.needleAngle { g with value := v₁ }) ∧
    CircularGauge.needleAngle { g with value := g.min_value } = g.start_angle ∧
    CircularGauge.needleAngle { g with value := g.max_value } =
      g.start_angle + g.angle_range ∧
    (g.angle_range = g.end_angle - g.start_angle → g.min_value = 0 → g.max_value = 30 →
      CircularGauge.needleAngle (g.setValue 30) = g.end_angle ∧
      CircularGauge.needleAngle (g.setValue 15) =
        g.start_angle + (1 / 2) * g.angle_range) := by
  have hd : 0 < g.max_value - g.min_value := by linarith
  have hd' : g.max_value - g.min_value ≠ 0 := ne_of_gt hd
  have hmono : ∀ v₁ v₂ : ℚ, v₁ < v₂ →
      (v₁ - g.min_value) / (g.max_value - g.min_value) <
        (v₂ - g.min_value) / (g.max_value - g.min_value) := by
    intro v₁ v₂ hv
    rw [div_lt_div_iff₀ hd hd]
    exact mul_lt_mul_of_pos_right (by linarith) hd
  refine ⟨?_, ?_, ?_, ?_, ?_⟩
  · intro v₁ v₂ hv hr
    rw [needleAngle_formula g v₁ hd', needleAngle_formula g v₂ hd']
    exact add_lt_add_left (mul_lt_mul_of_pos_right (hmono v₁ v₂ hv) hr) _
  · intro v₁ v₂ hv hr
    rw [needleAngle_formula g v₁ hd', needleAngle_formula g v₂ hd']
    exact add_lt_add_left (mul_lt_mul_of_neg_right (hmono v₁ v₂ hv) hr) _
  · rw [needleAngle_formula g g.min_value hd']
    simp
  · rw [needleAngle_formula g g.max_value hd', div_self hd', one_mul]
  · intro hr h0 h30
    have hs30 : g.setValue 30 = { g with value := (30 : ℚ) } := by
      unfold CircularGauge.setValue
      split_ifs with h1 h2
      · rw [h0] at h1; linarith
      · rw [h30] at h2; linarith
      · rfl
    have hs15 : g.setValue 15 = { g with value := (15 : ℚ) } := by
      unfold CircularGauge.setValue
      split_ifs with h1 h2
      · rw [h0] at h1; linarith
      · rw [h30] at h2; linarith
      · rfl
    constructor
    · rw [hs30, needleAngle_formula g 30 hd', h0, h30]
      norm_num
      linarith
    · rw [hs15, needleAngle_formula g 15 hd', h0, h30]
      norm_num

/-- Witness for C3 on the demo gauge (`min = 0`, `max = 30`,
`start_angle = -210`, `end_angle = 30`, `angle_range = 240`). -/
theorem needleAngle_of_value_witness :
    CircularGauge.needleAngle { demoGauge with value := demoGauge.min_value } =
      demoGauge.start_angle ∧
    CircularGauge.needleAngle (demoGauge.setValue 30) = demoGauge.end_angle ∧
    CircularGauge.needleAngle (demoGauge.setValue 15) =
      demoGauge.start_angle + (1 / 2) * demoGauge.angle_range ∧
    CircularGauge.needleAngle { demoGauge with value := 10 } <
      CircularGauge.needleAngle { demoGauge with value := 20 } := by
  have h := needleAngle_of_value demoGauge (by norm_num [demoGauge])
  have hend := h.2.2.2.2 (by norm_num [demoGauge]) (by norm_num [demoGauge])
    (by norm_num [demoGauge])
  exact ⟨h.2.2.1, hend.1, hend.2,
    h.1 10 20 (by norm_num) (by norm_num [demoGauge])⟩

lemma mapM_ok_of_ok {α β : Type} (f : α → Except String β) (h : α → β) :
    ∀ l : List α, (∀ a ∈ l, f a = Except.ok (h a)) →
      l.mapM f = Except.ok (l.map h) := by
  intro l
  induction l with
  | nil => intro _; rfl
  | cons a l ih =>
    intro hall
    rw [List.mapM_cons, hall a (List.mem_cons_self a l),
      ih fun b hb => hall b (List.mem_cons_of_mem a hb)]
    rfl

lemma drawTicks_eq (g : CircularGauge) (radius : ℚ) (h : (g.steps : ℚ) ≠ 0) :
    g.drawTicks radius = Except.ok ((List.range (g.steps + 1).toNat).map fun i : ℕ =>
      DrawOp.tickLine (g.start_angle + (i : ℚ) * (g.angle_range / (g.steps : ℚ)))
        (radius - 10) radius) := by
  unfold CircularGauge.drawTicks pydiv
  rw [if_neg h]
  rfl

lemma drawNumbers_eq (g : CircularGauge) (radius : ℚ) (h : (g.steps : ℚ) ≠ 0) :
    g.drawNumbers radius = Except.ok ((List.range (g.steps + 1).toNat).map fun i : ℕ =>
      DrawOp.numberText (g.start_angle + (i : ℚ) * (g.angle_range / (g.steps : ℚ)))
        (radius - 25)
        (fmtZeroDec (g.min_value + (i : ℚ) * (g.max_value - g.min_value) / (g.steps : ℚ)))
        (g.start_angle + (i : ℚ) * (g.angle_range / (g.steps : ℚ)) + 90)) := by
  unfold CircularGauge.drawNumbers
  rw [show pydiv g.angle_range (g.steps : ℚ) =
    Except.ok (g.angle_range / (g.steps : ℚ)) from by unfold pydiv; rw [if_neg h]]
  exact mapM_ok_of_ok _ _ _ fun i _ => by
    unfold pydiv
    rw [if_neg h]
    rfl

/-- C6: with `steps ≥ 1`, one render pass draws exactly `steps + 1` tick
segments, tick `i` at angle `start_angle + i * (angle_range / steps)`
from radius `radius - 10` to `radius`, and exactly `steps + 1` numeric
labels, label `i` displaying
`min_value + i * (max_value - min_value) / steps` rounded to zero
decimal places. -/
theorem ticks_and_labels (g : CircularGauge) (radius : ℚ) (h : 1 ≤ g.steps) :
    ∃ tops nops,
      g.drawTicks radius = Except.ok tops ∧
      g.drawNumbers radius = Except.ok nops ∧
      tops.length = g.steps.toNat + 1 ∧
      nops.length = g.steps.toNat + 1 ∧
      (∀ i : ℕ, i < tops.length →
        tops[i]? = some (DrawOp.tickLine
          (g.start_angle + (i : ℚ) * (g.angle_range / (g.steps : ℚ)))
          (radius - 10) radius)) ∧
      (∀ i : ℕ, i < nops.length →
        nops[i]? = some (DrawOp.numberText
          (g.start_angle + (i : ℚ) * (g.angle_range / (g.steps : ℚ)))
          (radius - 25)
          (fmtZeroDec (g.min_value + (i : ℚ) * (g.max_value - g.min_value) / (g.steps : ℚ)))
          (g.start_angle + (i : ℚ) * (g.angle_range / (g.steps : ℚ)) + 90))) := by
  have hz : g.steps ≠ 0 := by omega
  have hq : (g.steps : ℚ) ≠ 0 := Int.cast_ne_zero.mpr hz
  refine ⟨_, _, drawTicks_eq g radius hq, drawNumbers_eq g radius hq, ?_, ?_, ?_, ?_⟩
  · simp only [List.length_map, List.length_range]
    omega
  · simp only [List.length_map, List.length_range]
    omega
  · intro i hi
    simp only [List.length_map, List.length_range] at hi
    rw [List.getElem?_map, List.getElem?_range hi]
    rfl
  · intro i hi
    simp only [List.length_map, List.length_range] at hi
    rw [List.getElem?_map, List.getElem?_range hi]
    rfl

/-- Witness for C6 on the demo gauge (`steps = 15`) at radius `80`. -/
theorem ticks_and_labels_witness :
    1 ≤ demoGauge.steps ∧
    (∃ tops nops,
      demoGauge.drawTicks 80 = Except.ok tops ∧
      demoGauge.drawNumbers 80 = Except.ok nops ∧
      tops.length = demoGauge.steps.toNat + 1 ∧
      nops.length = demoGauge.steps.toNat + 1 ∧
      (∀ i : ℕ, i < tops.length →
        tops[i]? = some (DrawOp.tickLine
          (demoGauge.start_angle + (i : ℚ) * (demoGauge.angle_range / (demoGauge.steps : ℚ)))
          ((80 : ℚ) - 10) 80)) ∧
      (∀ i : ℕ, i < nops.length →
        nops[i]? = some (DrawOp.numberText
          (demoGauge.start_angle + (i : ℚ) * (demoGauge.angle_range / (demoGauge.steps : ℚ)))
          ((80 : ℚ) - 25)
          (fmtZeroDec (demoGauge.min_value +
            (i : ℚ) * (demoGauge.max_value - demoGauge.min_value) / (demoGauge.steps : ℚ)))
          (demoGauge.start_angle + (i : ℚ) * (demoGauge.angle_range / (demoGauge.steps : ℚ)) + 90)))) :=
  ⟨by norm_num [demoGauge], ticks_and_labels demoGauge 80 (by norm_num [demoGauge])⟩

lemma drawTicks_steps_zero (g : CircularGauge) (radius : ℚ) (h : g.steps = 0) :
    g.drawTicks radius = Except.error "float division by zero" := by
  have h0 : (g.steps : ℚ) = 0 := by rw [h]; norm_num
  unfold CircularGauge.drawTicks pydiv
  rw [if_pos h0]
  rfl

lemma renderOps_steps_zero (g : CircularGauge) (rect : Rect) (h : g.steps = 0) :
    CircularGauge.renderOps g rect = Except.error "float division by zero" := by
  simp only [CircularGauge.renderOps]
  rw [drawTicks_steps_zero g _ h]
  rfl

/-- C7: `paintEvent` never propagates an exception: for every gauge state
and widget rectangle it returns normally, and whenever the drawing steps
fault, the fault is caught and logged with the source's
`"Error in paintEvent: ..."` message. -/
theorem paintEvent_never_raises (g : CircularGauge) (rect : Rect) :
    (∃ r, g.paintEvent rect = Except.ok r) ∧
    (∀ e, CircularGauge.renderOps g rect = Except.error e →
      g.paintEvent rect =
        Except.ok { ops := [], log := some ("Error in paintEvent: " ++ e) }) := by
  unfold CircularGauge.paintEvent
  constructor
  · cases hr : CircularGauge.renderOps g rect <;> exact ⟨_, rfl⟩
  · intro e he
    rw [he]

/-- Witness for C7: a gauge with `steps = 0` rendered into a zero-sized
rectangle makes the drawing steps fault with a division by zero;
`paintEvent` still returns normally with the fault logged. -/
theorem paintEvent_never_raises_witness :
    zeroStepsGauge.paintEvent ⟨0, 0⟩ =
      Except.ok
        ⟨[], some ("Error in paintEvent: " ++ "float division by zero")⟩ :=
  (paintEvent_never_raises zeroStepsGauge ⟨0, 0⟩).2 "float division by zero"
    (renderOps_steps_zero zeroStepsGauge ⟨0, 0⟩ rfl)

/-- C8: rendering is deterministic and memoryless — a repaint appends a
frame that depends only on the gauge's configuration-plus-value and the
widget rectangle, not on previously produced frames, and leaves the gauge
unchanged. -/
theorem paintEvent_deterministic (s₁ s₂ : WidgetState) (rect : Rect)
    (h : s₁.gauge = s₂.gauge) :
    (paintStep s₁ rect).frames.getLast? = (paintStep s₂ rect).frames.getLast? ∧
    (paintStep s₁ rect).gauge = s₁.gauge := by
  unfold paintStep
  constructor
  · rw [List.getLast?_concat, List.getLast?_concat, h]
  · rfl

/-- Witness for C8: two widget states with the same gauge but different
frame histories produce the same next frame. -/
theorem paintEvent_deterministic_witness :
    (paintStep ⟨demoGauge, []⟩ ⟨300, 300⟩).frames.getLast? =
      (paintStep ⟨demoGauge, [Except.error "stale frame"]⟩ ⟨300, 300⟩).frames.getLast? ∧
    (paintStep ⟨demoGauge, []⟩ ⟨300, 300⟩).gauge = demoGauge :=
  paintEvent_deterministic ⟨demoGauge, []⟩ ⟨demoGauge, [Except.error "stale frame"]⟩
    ⟨300, 300⟩ rfl

/-- C10: construction never validates `steps` — any integer, zero and
negative values included, is accepted whenever `min_value < max_value` —
yet a render with `steps = 0` divides `angle_range` by `steps` and
faults. -/
theorem steps_unvalidated :
    (∀ (mn mx v : ℚ) (steps : ℤ) (sa ea : ℚ) (pc : QtColor) (bc : Option QtColor)
        (th : ℤ) (rp : QtColor) (rb hc : Option QtColor) (fs : ℤ) (ff : String),
      mn < mx →
      (CircularGauge.init mn mx v steps sa ea pc bc th rp rb hc fs ff).isOk = true) ∧
    (∀ (g : CircularGauge) (radius : ℚ), g.steps = 0 →
      g.drawTicks radius = Except.error "float division by zero") := by
  constructor
  · intro mn mx v steps sa ea pc bc th rp rb hc fs ff h
    simp [CircularGauge.init, if_neg (not_le.mpr h), Except.isOk, Except.toBool]
  · exact fun g radius h => drawTicks_steps_zero g radius h

/-- Witness for C10: construction succeeds with `steps = 0` and with
`steps = -5`, and `drawTicks` on the `steps = 0` gauge raises the
division fault. -/
theorem steps_unvalidated_witness :
    (CircularGauge.init 0 30 0 0 (-210) 30 (QtColor.named "black") none 12
      (QtColor.named "black") none none 10 "Arial").isOk = true ∧
    (CircularGauge.init 0 30 0 (-5) (-210) 30 (QtColor.named "black") none 12
      (QtColor.named "black") none none 10 "Arial").isOk = true ∧
    zeroStepsGauge.drawTicks 80 = Except.error "float division by zero" :=
  ⟨steps_unvalidated.1 0 30 0 0 (-210) 30 (QtColor.named "black") none 12
      (QtColor.named "black") none none 10 "Arial" (by norm_num),
   steps_unvalidated.1 0 30 0 (-5) (-210) 30 (QtColor.named "black") none 12
      (QtColor.named "black") none none 10 "Arial" (by norm_num),
   steps_unvalidated.2 zeroStepsGauge 80 rfl⟩
